import Mathlib

/-!
Shallow embedding of the Mafqood lost-and-found matching core
(`backend/app/services/ai/`): the similarity matcher
(`similarity_matcher.py`), the feature-extractor similarity primitive
(`feature_extractor.py`), the object-detector result type
(`object_detector.py`) and the orchestrating matching service
(`matching_service.py`), together with proofs of the specification
claims about them.

Modelling conventions:
* Python floats are modelled as real numbers (`ℝ`); `round(x, n)` is
  modelled as correctly-rounded decimal rounding with ties to even,
  which is what Python's `round` computes.
* Python strings are Lean `String`s; `str.lower()` is modelled by
  mapping `Char.toLower` over the characters (ASCII lowering).
* Optional values (`None`) are `Option`; Python truthiness of a string
  is "not the empty string", of a list "not the empty list".
* `datetime` values are modelled as epoch seconds (`ℝ`); an
  unparseable timestamp is `none` (the `except` branch of
  `_calculate_time_difference` returns `None`).
* numpy vectors are `List ℝ`; `np.dot` is the sum of pointwise
  products.
* The async database session is modelled as an explicit state
  (`DBState`) holding the item and match tables; `process_item`
  returns `Except` to model the `ValueError` raised for a missing
  item.  Wall-clock fields (`processing_time_ms`) and log calls are
  omitted, as is the redundant `features` dictionary of
  `MatchCandidate` (its entries are the typed fields that are already
  present on the dataclass).
-/

namespace Mafqood

/-- Python `str.lower()` (ASCII case folding), applied characterwise. -/
def lower (s : String) : String := ⟨s.data.map Char.toLower⟩

/-- Python substring test `needle in hay`, on the character lists. -/
def strIn (needle hay : List Char) : Bool :=
  (List.range (hay.length + 1)).any (fun i => needle.isPrefixOf (hay.drop i))

/-- Round a real to an integer, ties to even (banker's rounding), as
Python's builtin `round` does. -/
noncomputable def round_half_even (x : ℝ) : ℤ :=
  if x - ⌊x⌋ < 1/2 then ⌊x⌋
  else if 1/2 < x - ⌊x⌋ then ⌊x⌋ + 1
  else if Even ⌊x⌋ then ⌊x⌋ else ⌊x⌋ + 1

/-- Python `round(x, n)`: decimal rounding to `n` places, ties to even. -/
noncomputable def py_round (x : ℝ) (n : ℕ) : ℝ :=
  (round_half_even (x * 10 ^ n) : ℝ) / 10 ^ n

/-- Dot product of two embedding vectors (`np.dot` on equal-length
1-d arrays). -/
def dot (a b : List ℝ) : ℝ := (List.zipWith (· * ·) a b).sum

/-! ## Feature extractor (`feature_extractor.py`) -/

/-- `FeatureExtractor.similarity`: `0.0` when either embedding is
`None`, otherwise the dot product clipped into `[0, 1]`
(`np.clip(similarity, 0.0, 1.0)`). -/
noncomputable def FeatureExtractor.similarity
    (embedding1 embedding2 : Option (List ℝ)) : ℝ :=
  match embedding1, embedding2 with
  | some a, some b => min (max (dot a b) 0) 1
  | _, _ => 0

/-- `FeatureExtractor.extract` when `self.model is None`: returns
`None` (model unavailable, extraction disabled). -/
def extract_model_unavailable : Option (List ℝ) := none

/-! ## Object detector (`object_detector.py`) -/

/-- A single detection (`Detection` dataclass). -/
structure Detection where
  class_name : String
  confidence : ℝ
  bbox : List ℝ

/-- `DetectionResult` dataclass (without the wall-clock
`processing_time_ms` field). -/
structure DetectionResult where
  detections : List Detection
  primary_class : Option String
  primary_confidence : ℝ

/-- `ObjectDetector.detect` when `self.model is None`: the early
return `DetectionResult(detections=[], primary_class=None,
primary_confidence=0.0, processing_time_ms=0.0)`. -/
def detect_model_unavailable : DetectionResult :=
  { detections := [], primary_class := none, primary_confidence := 0 }

/-- `ObjectDetector.CLASS_MAPPING` lookup with fallback, i.e.
`map_to_category`; only the empty-detections path is exercised by the
claims, so the table itself is kept abstract behind the detections
list. `get_detections_dict` converts each detection to its storage
dictionary; we keep the typed `Detection` and note that the conversion
preserves emptiness: `get_detections_dict(result)` is `[]` iff
`result.detections` is `[]`. -/
def get_detections_dict (result : DetectionResult) : List Detection :=
  result.detections

/-! ## Similarity matcher (`similarity_matcher.py`) -/

/-- Item metadata dictionary as produced by
`MatchingService._item_to_dict`. -/
structure ItemMeta where
  id : String
  type : String
  category : String
  title : String
  brand : Option String
  color : Option String
  location : Option String
  latitude : Option ℝ
  longitude : Option ℝ
  date_time : Option ℝ

/-- `MatchCandidate` dataclass (without the redundant `features`
dictionary, whose entries are rounded copies of the typed fields). -/
structure MatchCandidate where
  item_id : String
  visual_similarity : ℝ
  category_match : Bool
  color_match : Bool
  brand_match : Bool
  location_distance_km : Option ℝ
  time_difference_hours : Option ℝ
  final_score : ℝ
  confidence : String

/-- `SimilarityMatcher.MIN_VISUAL_SIMILARITY`. -/
def MIN_VISUAL_SIMILARITY : ℝ := 0.10

/-- `SimilarityMatcher.MIN_FINAL_SCORE`. -/
def MIN_FINAL_SCORE : ℝ := 0.25

/-- `SimilarityMatcher.MAX_LOCATION_DISTANCE_KM`. -/
def MAX_LOCATION_DISTANCE_KM : ℝ := 100

/-- `SimilarityMatcher.MAX_TIME_DIFFERENCE_DAYS`. -/
def MAX_TIME_DIFFERENCE_DAYS : ℝ := 60

/-- `SimilarityMatcher.HIGH_CONFIDENCE`. -/
def HIGH_CONFIDENCE : ℝ := 0.70

/-- `SimilarityMatcher.MEDIUM_CONFIDENCE`. -/
def MEDIUM_CONFIDENCE : ℝ := 0.45

/-- Degrees to radians (`math.radians`). -/
noncomputable def radians (x : ℝ) : ℝ := x * Real.pi / 180

/-- Two-argument arctangent (`math.atan2`). -/
noncomputable def atan2 (y x : ℝ) : ℝ :=
  if 0 < x then Real.arctan (y / x)
  else if x < 0 ∧ 0 ≤ y then Real.arctan (y / x) + Real.pi
  else if x < 0 ∧ y < 0 then Real.arctan (y / x) - Real.pi
  else if x = 0 ∧ 0 < y then Real.pi / 2
  else if x = 0 ∧ y < 0 then -(Real.pi / 2)
  else 0

/-- `SimilarityMatcher._calculate_distance`: haversine distance in km
(Earth radius 6371) between two coordinates, `None` if any coordinate
is missing. -/
noncomputable def calculate_distance
    (lat1 lon1 lat2 lon2 : Option ℝ) : Option ℝ :=
  match lat1, lon1, lat2, lon2 with
  | some lat1, some lon1, some lat2, some lon2 =>
    let R : ℝ := 6371
    let lat1_rad := radians lat1
    let lat2_rad := radians lat2
    let delta_lat := radians (lat2 - lat1)
    let delta_lon := radians (lon2 - lon1)
    let a := Real.sin (delta_lat / 2) ^ 2 +
      Real.cos lat1_rad * Real.cos lat2_rad * Real.sin (delta_lon / 2) ^ 2
    let c := 2 * atan2 (Real.sqrt a) (Real.sqrt (1 - a))
    some (R * c)
  | _, _, _, _ => none

/-- `SimilarityMatcher._calculate_time_difference`: absolute
difference of the two timestamps in hours, `None` when either is
missing or unparseable (the `except` branch). -/
noncomputable def calculate_time_difference
    (time1 time2 : Option ℝ) : Option ℝ :=
  match time1, time2 with
  | some t1, some t2 => some (|t1 - t2| / 3600)
  | _, _ => none

/-- Category component of `calculate_match_score`: `1.0` on a
case-insensitive category match, else `0.5`. -/
def category_match_bool (source_item target_item : ItemMeta) : Bool :=
  lower source_item.category = lower target_item.category

/-- Category component score. -/
def category_score (source_item target_item : ItemMeta) : ℝ :=
  if category_match_bool source_item target_item then 1.0 else 0.5

/-- Color comparison of `calculate_match_score`: `none` when either
lowered color string is empty (Python falsy), otherwise equality. -/
def color_match_opt (source_item target_item : ItemMeta) : Option Bool :=
  let source_color := lower (source_item.color.getD "")
  let target_color := lower (target_item.color.getD "")
  if source_color ≠ "" ∧ target_color ≠ "" then some (source_color = target_color)
  else none

/-- Color component score: `0.7` when unknown, else `1.0` / `0.3`. -/
def color_score (source_item target_item : ItemMeta) : ℝ :=
  match color_match_opt source_item target_item with
  | none => 0.7
  | some b => if b then 1.0 else 0.3

/-- Brand comparison, same rule as color. -/
def brand_match_opt (source_item target_item : ItemMeta) : Option Bool :=
  let source_brand := lower (source_item.brand.getD "")
  let target_brand := lower (target_item.brand.getD "")
  if source_brand ≠ "" ∧ target_brand ≠ "" then some (source_brand = target_brand)
  else none

/-- Brand component score. -/
def brand_score (source_item target_item : ItemMeta) : ℝ :=
  match brand_match_opt source_item target_item with
  | none => 0.7
  | some b => if b then 1.0 else 0.3

/-- Location component score of `calculate_match_score`: distance
decay when both coordinate pairs are present, otherwise the
location-name comparison fallback. -/
noncomputable def location_score (source_item target_item : ItemMeta) : ℝ :=
  match calculate_distance source_item.latitude source_item.longitude
      target_item.latitude target_item.longitude with
  | some location_distance =>
    if location_distance ≤ 1 then 1.0
    else if location_distance ≤ MAX_LOCATION_DISTANCE_KM then
      max 0.3 (1.0 - location_distance / MAX_LOCATION_DISTANCE_KM)
    else 0.1
  | none =>
    let source_loc := lower (source_item.location.getD "")
    let target_loc := lower (target_item.location.getD "")
    if source_loc ≠ "" ∧ target_loc ≠ "" then
      if source_loc = target_loc then 1.0
      else if strIn source_loc.data target_loc.data ∨
          strIn target_loc.data source_loc.data then 0.8
      else 0.5
    else 0.5

/-- Time component score of `calculate_match_score`. -/
noncomputable def time_score (source_item target_item : ItemMeta) : ℝ :=
  match calculate_time_difference source_item.date_time target_item.date_time with
  | some time_diff =>
    if time_diff ≤ 24 then 1.0
    else if time_diff ≤ MAX_TIME_DIFFERENCE_DAYS * 24 then
      max 0.3 (1.0 - time_diff / (MAX_TIME_DIFFERENCE_DAYS * 24))
    else 0.1
  | none => 0.5

/-- The local `final_score` of `calculate_match_score` before
rounding: the weighted sum over `WEIGHTS` (visual 0.65, category 0.15,
color 0.08, brand 0.02, location 0.07, time 0.03). -/
noncomputable def final_score_raw
    (visual_similarity : ℝ) (source_item target_item : ItemMeta) : ℝ :=
  visual_similarity * 0.65 +
  category_score source_item target_item * 0.15 +
  color_score source_item target_item * 0.08 +
  brand_score source_item target_item * 0.02 +
  location_score source_item target_item * 0.07 +
  time_score source_item target_item * 0.03

/-- `SimilarityMatcher.calculate_match_score`: assemble the
`MatchCandidate`.  The confidence tier is decided on the unrounded
weighted sum; the stored `final_score` is rounded to 3 decimals, the
stored distance/time features to 2 resp. 1 decimals. -/
noncomputable def calculate_match_score
    (visual_similarity : ℝ) (source_item target_item : ItemMeta) :
    MatchCandidate :=
  let final_score := final_score_raw visual_similarity source_item target_item
  let confidence :=
    if final_score ≥ HIGH_CONFIDENCE then "high"
    else if final_score ≥ MEDIUM_CONFIDENCE then "medium"
    else "low"
  { item_id := target_item.id
    visual_similarity := visual_similarity
    category_match := category_match_bool source_item target_item
    color_match := (color_match_opt source_item target_item).getD false
    brand_match := (brand_match_opt source_item target_item).getD false
    location_distance_km :=
      (calculate_distance source_item.latitude source_item.longitude
        target_item.latitude target_item.longitude).map (py_round · 2)
    time_difference_hours :=
      (calculate_time_difference source_item.date_time
        target_item.date_time).map (py_round · 1)
    final_score := py_round final_score 3
    confidence := confidence }

/-- The effective minimum score of `find_matches`:
`min_score = min_score or self.MIN_FINAL_SCORE`, so `None` and the
falsy `0.0` both fall back to `MIN_FINAL_SCORE`. -/
noncomputable def effective_min_score (min_score : Option ℝ) : ℝ :=
  match min_score with
  | none => MIN_FINAL_SCORE
  | some v => if v = 0 then MIN_FINAL_SCORE else v

/-- Visual similarity computed inside `find_matches`: dot product
clamped by `max(0.0, min(1.0, ·))`, or `0.0` when either embedding is
`None`. -/
noncomputable def visual_sim_of
    (source_embedding candidate_embedding : Option (List ℝ)) : ℝ :=
  match source_embedding, candidate_embedding with
  | some a, some b => max 0 (min 1 (dot a b))
  | _, _ => 0

/-- Candidate comparison used for the descending sort of
`find_matches` (`sort(key=final_score, reverse=True)`). -/
noncomputable def by_score_desc (a b : MatchCandidate) : Bool :=
  decide (b.final_score ≤ a.final_score)

/-- `SimilarityMatcher.find_matches`: per candidate compute the
clamped visual similarity, skip it when below
`MIN_VISUAL_SIMILARITY`, score it, keep it when the final score
reaches the effective minimum; sort descending by final score and
truncate to `max_results`. -/
noncomputable def find_matches
    (source_embedding : Option (List ℝ)) (source_item : ItemMeta)
    (candidates : List (Option (List ℝ) × ItemMeta))
    (min_score : Option ℝ := none) (max_results : ℕ := 20) :
    List MatchCandidate :=
  let ms := effective_min_score min_score
  let kept := candidates.filterMap (fun cand =>
    let visual_sim := visual_sim_of source_embedding cand.1
    if visual_sim < MIN_VISUAL_SIMILARITY then none
    else
      let m := calculate_match_score visual_sim source_item cand.2
      if m.final_score ≥ ms then some m else none)
  (kept.mergeSort by_score_desc).take max_results

/-! ## Matching service (`matching_service.py`, `config.py`) -/

/-- `settings.min_match_similarity` from `app/core/config.py`. -/
def min_match_similarity : ℝ := 0.5

/-- `ItemType` enum. -/
inductive ItemType where
  | lost
  | found
deriving DecidableEq

/-- The `.value` string of an `ItemType`. -/
def ItemType.value : ItemType → String
  | .lost => "lost"
  | .found => "found"

/-- `ItemStatus` enum (`OPEN` is spelled `opened` since `open` is a
Lean keyword). -/
inductive ItemStatus where
  | opened
  | matched
  | claimed
  | closed
deriving DecidableEq

/-- The `Item` ORM row, restricted to the fields the matching core
reads or writes.  Ids are the string form of the UUIDs. -/
structure Item where
  id : String
  user_id : String
  type : ItemType
  status : ItemStatus
  category : String
  title : String
  brand : Option String
  color : Option String
  location : Option String
  latitude : Option ℝ
  longitude : Option ℝ
  date_time : Option ℝ
  detected_objects : Option (List Detection)
  ai_category : Option String
  ai_processed : Bool
  embedding : Option (List ℝ)
  match_count : ℕ

/-- The `Match` ORM row as created by `MatchingService._create_match`
(`status` is always `"pending"`; the confidence enum member is keyed
by the candidate's confidence string). -/
structure MatchRec where
  user_item_id : String
  matched_item_id : String
  similarity_score : ℝ
  confidence : String
  status : String

/-- The database state visible to the matching service: the item and
match tables. -/
structure DBState where
  items : List Item
  matchRows : List MatchRec

/-- `ProcessingResult` dataclass (without the wall-clock
`processing_time_ms`). -/
structure ProcessingResult where
  item_id : String
  detected_objects : List Detection
  ai_category : Option String
  embedding : Option (List ℝ)
  matches_found : ℕ

/-- `select(Item).where(Item.id == item_id)` followed by
`scalar_one_or_none()`: first item with the given id, if any. -/
def findItem : List Item → String → Option Item
  | [], _ => none
  | i :: rest, iid => if i.id = iid then some i else findItem rest iid

/-- Persisting an updated item row: every row with the item's id is
replaced by the new value. -/
def updateItem (items : List Item) (it : Item) : List Item :=
  items.map (fun j => if j.id = it.id then it else j)

/-- `MatchingService._item_to_dict`. -/
def item_to_dict (item : Item) : ItemMeta :=
  { id := item.id
    type := item.type.value
    category := item.category
    title := item.title
    brand := item.brand
    color := item.color
    location := item.location
    latitude := item.latitude
    longitude := item.longitude
    date_time := item.date_time }

/-- `MatchingService._get_candidate_items`: the SQL filter (opposite
type, `OPEN` status, different owner, `ai_processed`, non-null
embedding) capped at `limit`, then the Python loop that keeps rows
with a truthy (non-empty) embedding and pairs the embedding with the
metadata dictionary. -/
def get_candidate_items (items : List Item) (item_type : ItemType)
    (exclude_user_id : String) (limit : ℕ) :
    List (Option (List ℝ) × ItemMeta) :=
  ((items.filter (fun it =>
      decide (it.type = item_type) && decide (it.status = ItemStatus.opened) &&
      decide (it.user_id ≠ exclude_user_id) && it.ai_processed &&
      it.embedding.isSome)).take limit).filterMap
    (fun it => match it.embedding with
      | some e => if e.isEmpty then none else some (some e, item_to_dict it)
      | none => none)

/-- `MatchingService._create_match` followed by the
`matches_created += 1` of the caller's loop: append a new PENDING
match row for `(user_item, matched_item)` — without checking whether
one already exists — and increment the in-memory item's
`match_count`. -/
def create_match (st : DBState × Item × ℕ) (candidate : MatchCandidate) :
    DBState × Item × ℕ :=
  let db := st.1
  let user_item := st.2.1
  let n := st.2.2
  let m : MatchRec :=
    { user_item_id := user_item.id
      matched_item_id := candidate.item_id
      similarity_score := candidate.final_score
      confidence := candidate.confidence
      status := "pending" }
  (⟨db.items, db.matchRows ++ [m]⟩,
   { user_item with match_count := user_item.match_count + 1 }, n + 1)

/-- `MatchingService.process_item`. The detector and extractor
outputs are passed in as the results of steps 2 and 3 (their model
inference is an external capability); the remaining pipeline — fetch
item, write AI fields, fetch candidates, `find_matches` with
`settings.min_match_similarity`, create the match rows, commit — is
modelled on the database state.  A missing item raises `ValueError`,
modelled as `Except.error`. -/
noncomputable def process_item (detection_result : DetectionResult)
    (embedding : Option (List ℝ)) (item_id : String) (db : DBState) :
    Except String (DBState × ProcessingResult) :=
  match findItem db.items item_id with
  | none => .error "Item not found"
  | some item =>
    let detected_objects := get_detections_dict detection_result
    let item1 : Item :=
      { item with
        detected_objects :=
          if detected_objects.isEmpty then none else some detected_objects
        ai_category := detection_result.primary_class
        ai_processed := true
        embedding := match embedding with
          | some e => some e
          | none => item.embedding }
    let db1 : DBState := ⟨updateItem db.items item1, db.matchRows⟩
    let step : DBState × Item × ℕ :=
      match embedding with
      | none => (db1, item1, 0)
      | some e =>
        let opposite_type :=
          if item1.type = ItemType.lost then ItemType.found else ItemType.lost
        let candidates :=
          get_candidate_items db1.items opposite_type item1.user_id 500
        if candidates.isEmpty then (db1, item1, 0)
        else
          let found := find_matches (some e) (item_to_dict item1)
            candidates (some min_match_similarity) 20
          found.foldl create_match (db1, item1, 0)
    let db2 := step.1
    let item2 := step.2.1
    let matches_created := step.2.2
    .ok (⟨updateItem db2.items item2, db2.matchRows⟩,
      { item_id := item_id
        detected_objects := detected_objects
        ai_category := detection_result.primary_class
        embedding := embedding
        matches_found := matches_created })

/-! ## Concrete test fixtures (inputs for the scenario claims) -/

/-- Metadata with category "phone" and every optional field absent. -/
def meta_phone : ItemMeta :=
  { id := "x", type := "lost", category := "phone", title := "t"
    brand := none, color := none, location := none
    latitude := none, longitude := none, date_time := none }

/-- Source metadata of the category-mismatch scenario: category
"phone", location name "riyadh", time 0. -/
def c2_source : ItemMeta :=
  { id := "s", type := "lost", category := "phone", title := "t"
    brand := none, color := none, location := some "riyadh"
    latitude := none, longitude := none, date_time := some 0 }

/-- Target metadata of the category-mismatch scenario: category
"wallet" (differs), same location name, 30 minutes later. -/
def c2_target : ItemMeta :=
  { id := "b", type := "found", category := "wallet", title := "t"
    brand := none, color := none, location := some "riyadh"
    latitude := none, longitude := none, date_time := some 1800 }

/-- Lost item "a" owned by user "u1", not yet AI-processed. -/
def item_a : Item :=
  { id := "a", user_id := "u1", type := .lost, status := .opened
    category := "phone", title := "t", brand := none, color := none
    location := none, latitude := none, longitude := none
    date_time := none, detected_objects := none, ai_category := none
    ai_processed := false, embedding := none, match_count := 0 }

/-- Found item "b" owned by user "u2", already processed, with the
unit embedding `[1]`. -/
def item_b : Item :=
  { item_a with
    id := "b"
    user_id := "u2"
    type := .found
    ai_processed := true
    embedding := some [1] }

/-- Two-item database for the reprocessing scenario. -/
def db_c1 : DBState := ⟨[item_a, item_b], []⟩

/-- Item "a" as written back by the first processing run before the
match loop: AI fields set, embedding `[1]` stored. -/
def item_a1 : Item :=
  { item_a with
    detected_objects := none
    ai_category := none
    ai_processed := true
    embedding := some [1] }

/-- Item "a" as committed by the first run (one match created). -/
def item_a2 : Item := { item_a1 with match_count := 1 }

/-- Item "a" as committed by the second run (another match created). -/
def item_a3 : Item := { item_a1 with match_count := 2 }

/-- The match candidate produced for item "b" when processing item
"a" (visual similarity 1). -/
noncomputable def mc_ab : MatchCandidate :=
  calculate_match_score 1 (item_to_dict item_a1) (item_to_dict item_b)

/-- The match row created for the pair ("a", "b"). -/
noncomputable def m_ab : MatchRec :=
  { user_item_id := "a", matched_item_id := "b"
    similarity_score := mc_ab.final_score
    confidence := mc_ab.confidence, status := "pending" }

/-- Database state after the first processing run of item "a". -/
noncomputable def db_after1 : DBState := ⟨[item_a2, item_b], [m_ab]⟩

/-- Database state after the second (re-)processing run of item "a":
a second, identical match row for the same pair. -/
noncomputable def db_after2 : DBState := ⟨[item_a3, item_b], [m_ab, m_ab]⟩

/-- The processing result returned by each of the two runs. -/
def r_run : ProcessingResult :=
  { item_id := "a", detected_objects := [], ai_category := none
    embedding := some [1], matches_found := 1 }

/-! ## Helper lemmas -/

/-- Evaluation rule for `round_half_even` below the tie. -/
theorem round_half_even_eq_floor (x : ℝ) (k : ℤ) (hk : ⌊x⌋ = k)
    (h : x - k < 1/2) : round_half_even x = k := by
  unfold round_half_even
  rw [hk]
  rw [if_pos h]

/-- Evaluation rule for `round_half_even` above the tie. -/
theorem round_half_even_eq_succ (x : ℝ) (k : ℤ) (hk : ⌊x⌋ = k)
    (h : 1/2 < x - k) : round_half_even x = k + 1 := by
  unfold round_half_even
  rw [hk, if_neg (by linarith), if_pos h]

/-- `round_half_even` is monotone. -/
theorem round_half_even_mono {x y : ℝ} (h : x ≤ y) :
    round_half_even x ≤ round_half_even y := by
  have hf : ⌊x⌋ ≤ ⌊y⌋ := Int.floor_le_floor h
  by_cases heq : ⌊x⌋ = ⌊y⌋
  · have hxy : x - (⌊x⌋ : ℝ) ≤ y - (⌊y⌋ : ℝ) := by
      have hcast : ((⌊x⌋ : ℤ) : ℝ) = ((⌊y⌋ : ℤ) : ℝ) := by rw [heq]
      linarith
    unfold round_half_even
    rw [heq]
    split_ifs <;> first | omega | linarith
  · have hlt : ⌊x⌋ < ⌊y⌋ := lt_of_le_of_ne hf heq
    have h1 : round_half_even x ≤ ⌊x⌋ + 1 := by
      unfold round_half_even; split_ifs <;> omega
    have h2 : ⌊y⌋ ≤ round_half_even y := by
      unfold round_half_even; split_ifs <;> omega
    omega

/-- `py_round` is monotone in its argument. -/
theorem py_round_mono {x y : ℝ} (n : ℕ) (h : x ≤ y) :
    py_round x n ≤ py_round y n := by
  unfold py_round
  have hp : (0:ℝ) < 10 ^ n := by positivity
  have hm : x * 10 ^ n ≤ y * 10 ^ n := by nlinarith
  have := round_half_even_mono hm
  have hc : ((round_half_even (x * 10 ^ n) : ℤ) : ℝ) ≤
      ((round_half_even (y * 10 ^ n) : ℤ) : ℝ) := by exact_mod_cast this
  exact div_le_div_of_nonneg_right hc hp.le

/-- Helper: the dot-product of a vector with itself being `1` makes
the clipped similarity `1`. -/
theorem similarity_self_of_unit (a : List ℝ) (h : dot a a = 1) :
    FeatureExtractor.similarity (some a) (some a) = 1 := by
  simp [FeatureExtractor.similarity, h]

/-- C7: for any two embedding vectors (including the `None` guard
cases) the similarity lies in `[0, 1]`, and a vector of unit norm
(`dot a a = 1`, i.e. L2-normalized and non-zero) has self-similarity
exactly `1.0`. -/
theorem similarity_bounds_and_self :
    (∀ e1 e2 : Option (List ℝ),
      0 ≤ FeatureExtractor.similarity e1 e2 ∧
        FeatureExtractor.similarity e1 e2 ≤ 1) ∧
    (∀ a : List ℝ, dot a a = 1 →
      FeatureExtractor.similarity (some a) (some a) = 1) := by
  constructor
  · intro e1 e2
    match e1, e2 with
    | some a, some b =>
      constructor
      · exact le_min (le_max_right _ _) zero_le_one
      · exact min_le_right _ _
    | some a, none => exact ⟨le_refl 0, zero_le_one⟩
    | none, some b => exact ⟨le_refl 0, zero_le_one⟩
    | none, none => exact ⟨le_refl 0, zero_le_one⟩
  · exact similarity_self_of_unit

/-- Witness for C7: the concrete unit vector `[1, 0]`. -/
theorem similarity_bounds_and_self_witness :
    dot [1, 0] [1, 0] = 1 ∧
    FeatureExtractor.similarity (some [1, 0]) (some [1, 0]) = 1 := by
  have h : dot [1, 0] [1, 0] = 1 := by norm_num [dot]
  exact ⟨h, similarity_bounds_and_self.2 [1, 0] h⟩

/-- Helper: the haversine distance of a point to itself is zero. -/
theorem calculate_distance_self (lat lon : ℝ) :
    calculate_distance (some lat) (some lon) (some lat) (some lon) =
      some 0 := by
  simp only [calculate_distance]
  have h0 : radians (lat - lat) = 0 := by simp [radians]
  have h1 : radians (lon - lon) = 0 := by simp [radians]
  rw [h0, h1]
  norm_num [atan2, Real.arctan_zero]

/-- Helper: the haversine distance is symmetric in its two points. -/
theorem calculate_distance_symm (lat1 lon1 lat2 lon2 : Option ℝ) :
    calculate_distance lat1 lon1 lat2 lon2 =
      calculate_distance lat2 lon2 lat1 lon1 := by
  cases lat1 <;> cases lon1 <;> cases lat2 <;> cases lon2 <;> try rfl
  rename_i a b c d
  · simp only [calculate_distance]
    have key1 : Real.sin (radians (a - c) / 2) ^ 2 =
        Real.sin (radians (c - a) / 2) ^ 2 := by
      have h : radians (a - c) = -(radians (c - a)) := by unfold radians; ring
      rw [h, neg_div, Real.sin_neg, neg_sq]
    have key2 : Real.sin (radians (b - d) / 2) ^ 2 =
        Real.sin (radians (d - b) / 2) ^ 2 := by
      have h : radians (b - d) = -(radians (d - b)) := by unfold radians; ring
      rw [h, neg_div, Real.sin_neg, neg_sq]
    rw [key2, mul_comm (Real.cos (radians c)) (Real.cos (radians a)), key1]

/-- C8: the location-distance computation (haversine with Earth
radius 6371 km and an `atan2`-based arc) satisfies
`distance(p, p) = 0` and `distance(a, b) = distance(b, a)` for all
coordinates, including the missing-coordinate (`None`) cases. -/
theorem haversine_self_and_symm :
    (∀ lat lon : ℝ,
      calculate_distance (some lat) (some lon) (some lat) (some lon) =
        some 0) ∧
    (∀ lat1 lon1 lat2 lon2 : Option ℝ,
      calculate_distance lat1 lon1 lat2 lon2 =
        calculate_distance lat2 lon2 lat1 lon1) :=
  ⟨calculate_distance_self, calculate_distance_symm⟩

/-- C10: an explicitly supplied `min_score` of `0.0` is falsy in
`min_score or self.MIN_FINAL_SCORE`, so it is replaced by the default
`0.25` and `find_matches` behaves exactly as if no threshold had been
supplied. -/
theorem min_score_zero_is_default :
    effective_min_score (some 0) = MIN_FINAL_SCORE ∧
    effective_min_score none = MIN_FINAL_SCORE ∧
    (∀ (source_embedding : Option (List ℝ)) (source_item : ItemMeta)
      (candidates : List (Option (List ℝ) × ItemMeta)) (max_results : ℕ),
      find_matches source_embedding source_item candidates (some 0)
          max_results =
        find_matches source_embedding source_item candidates none
          max_results) := by
  refine ⟨by simp [effective_min_score], rfl, ?_⟩
  intro se si cands mr
  simp [find_matches, effective_min_score]
/-- Helper: component evaluation for `meta_phone` against itself:
matching category, unknown color/brand, no location, no time. -/
theorem raw_phone (v : ℝ) :
    final_score_raw v meta_phone meta_phone = v * 0.65 + 0.27 := by
  have h1 : category_score meta_phone meta_phone = 1.0 := rfl
  have h2 : color_score meta_phone meta_phone = 0.7 := rfl
  have h3 : brand_score meta_phone meta_phone = 0.7 := rfl
  have h4 : location_score meta_phone meta_phone = 0.5 := rfl
  have h5 : time_score meta_phone meta_phone = 0.5 := rfl
  unfold final_score_raw
  rw [h1, h2, h3, h4, h5]
  ring_nf
/-- C3 (amended): the confidence tier is decided on the unrounded
weighted composite score — HIGH iff it is at least 0.70, MEDIUM iff it
is at least 0.45 and below 0.70, LOW iff it is below 0.45.  (The
returned `final_score` is this composite rounded to 3 decimals, so a
returned `0.700` can carry confidence MEDIUM when the unrounded score
was just below 0.70.) -/
theorem confidence_tier_boundaries (v : ℝ) (s t : ItemMeta) :
    ((calculate_match_score v s t).confidence = "high" ↔
      HIGH_CONFIDENCE ≤ final_score_raw v s t) ∧
    ((calculate_match_score v s t).confidence = "medium" ↔
      MEDIUM_CONFIDENCE ≤ final_score_raw v s t ∧
        final_score_raw v s t < HIGH_CONFIDENCE) ∧
    ((calculate_match_score v s t).confidence = "low" ↔
      final_score_raw v s t < MEDIUM_CONFIDENCE) := by
  have hmh : MEDIUM_CONFIDENCE < HIGH_CONFIDENCE := by
    norm_num [MEDIUM_CONFIDENCE, HIGH_CONFIDENCE]
  have hconf : (calculate_match_score v s t).confidence =
      (if final_score_raw v s t ≥ HIGH_CONFIDENCE then "high"
       else if final_score_raw v s t ≥ MEDIUM_CONFIDENCE then "medium"
       else "low") := rfl
  simp only [hconf]
  by_cases h1 : final_score_raw v s t ≥ HIGH_CONFIDENCE
  · rw [if_pos h1]
    refine ⟨⟨fun _ => h1, fun _ => rfl⟩, ?_, ?_⟩
    · constructor
      · intro hx; exact absurd hx (by decide)
      · rintro ⟨-, hlt⟩; exact absurd h1 (not_le.mpr hlt)
    · constructor
      · intro hx; exact absurd hx (by decide)
      · intro hlt; exact absurd hlt (not_lt.mpr (le_trans hmh.le h1))
  · rw [if_neg h1]
    by_cases h2 : final_score_raw v s t ≥ MEDIUM_CONFIDENCE
    · rw [if_pos h2]
      refine ⟨?_, ?_, ?_⟩
      · constructor
        · intro hx; exact absurd hx (by decide)
        · intro hge; exact absurd hge h1
      · exact ⟨fun _ => ⟨h2, not_le.mp h1⟩, fun _ => rfl⟩
      · constructor
        · intro hx; exact absurd hx (by decide)
        · intro hlt; exact absurd (h2 : MEDIUM_CONFIDENCE ≤ _) (not_le.mpr hlt)
    · rw [if_neg h2]
      refine ⟨?_, ?_, ?_⟩
      · constructor
        · intro hx; exact absurd hx (by decide)
        · intro hge; exact absurd hge h1
      · constructor
        · intro hx; exact absurd hx (by decide)
        · rintro ⟨hge, -⟩; exact absurd hge h2
      · exact ⟨fun _ => not_le.mp h2, fun _ => rfl⟩

/-- Counterexample for C3 as stated: with matching category and every
other signal neutral, a visual similarity of 0.661 gives the unrounded
composite 0.69965, which rounds to a returned final_score of exactly
0.700 while the assigned confidence is MEDIUM, not HIGH. -/
theorem confidence_not_from_rounded_score :
    (calculate_match_score 0.661 meta_phone meta_phone).final_score = 0.700 ∧
    (calculate_match_score 0.661 meta_phone meta_phone).confidence = "medium" := by
  have hraw : final_score_raw 0.661 meta_phone meta_phone = 0.69965 := by
    rw [raw_phone]; norm_num
  constructor
  · show py_round (final_score_raw 0.661 meta_phone meta_phone) 3 = 0.700
    rw [hraw]
    unfold py_round
    rw [show (0.69965 : ℝ) * 10 ^ 3 = 699.65 by norm_num]
    rw [round_half_even_eq_succ 699.65 699 (by norm_num) (by norm_num)]
    norm_num
  · show (if final_score_raw 0.661 meta_phone meta_phone ≥ HIGH_CONFIDENCE
        then "high"
      else if final_score_raw 0.661 meta_phone meta_phone ≥ MEDIUM_CONFIDENCE
        then "medium"
      else "low") = "medium"
    rw [hraw, if_neg (by norm_num [HIGH_CONFIDENCE]),
      if_pos (by norm_num [MEDIUM_CONFIDENCE])]

/-- C4 (amended): holding the metadata fixed, a strictly larger
visual similarity strictly increases the unrounded weighted composite
score (weight 0.65 > 0); the returned `final_score` — the composite
rounded to 3 decimals — is therefore non-decreasing, though rounding
can collapse a strict increase. -/
theorem visual_similarity_monotone (v1 v2 : ℝ) (s t : ItemMeta)
    (h : v1 < v2) :
    final_score_raw v1 s t < final_score_raw v2 s t ∧
    (calculate_match_score v1 s t).final_score ≤
      (calculate_match_score v2 s t).final_score := by
  have hlt : final_score_raw v1 s t < final_score_raw v2 s t := by
    unfold final_score_raw
    have : v1 * 0.65 < v2 * 0.65 := by nlinarith
    linarith
  refine ⟨hlt, ?_⟩
  show py_round (final_score_raw v1 s t) 3 ≤
    py_round (final_score_raw v2 s t) 3
  exact py_round_mono 3 hlt.le

/-- Witness for C4 (amended), at visual similarities 0 < 1 and the
concrete neutral metadata. -/
theorem visual_similarity_monotone_witness :
    (0 : ℝ) < 1 ∧
    (final_score_raw 0 meta_phone meta_phone <
        final_score_raw 1 meta_phone meta_phone ∧
      (calculate_match_score 0 meta_phone meta_phone).final_score ≤
        (calculate_match_score 1 meta_phone meta_phone).final_score) :=
  ⟨by norm_num, visual_similarity_monotone 0 1 meta_phone meta_phone (by norm_num)⟩

/-- Counterexample for C4 as stated: the returned `final_score` is
rounded to 3 decimals, so raising the visual similarity strictly from
0.9 to 0.9001 leaves the returned score unchanged (0.855065 and 0.855
both round to 0.855). -/
theorem rounding_collapses_strict_increase :
    (0.9 : ℝ) < 0.9001 ∧
    (calculate_match_score 0.9001 meta_phone meta_phone).final_score =
      (calculate_match_score 0.9 meta_phone meta_phone).final_score := by
  refine ⟨by norm_num, ?_⟩
  show py_round (final_score_raw 0.9001 meta_phone meta_phone) 3 =
    py_round (final_score_raw 0.9 meta_phone meta_phone) 3
  rw [raw_phone, raw_phone]
  rw [show (0.9001 : ℝ) * 0.65 + 0.27 = 0.855065 by norm_num,
    show (0.9 : ℝ) * 0.65 + 0.27 = 0.855 by norm_num]
  unfold py_round
  rw [show (0.855065 : ℝ) * 10 ^ 3 = 855.065 by norm_num,
    show (0.855 : ℝ) * 10 ^ 3 = 855 by norm_num]
  rw [round_half_even_eq_floor 855.065 855 (by norm_num) (by norm_num),
    round_half_even_eq_floor 855 855 (by norm_num) (by norm_num)]
/-- Helper: full evaluation of the category-mismatch scenario
(visual 0.9, categories "phone" vs "wallet", colors/brands missing,
same location name, 30 minutes apart): composite 0.83, HIGH. -/
theorem c2_example_final :
    (calculate_match_score 0.9 c2_source c2_target).final_score = 0.830 ∧
    (calculate_match_score 0.9 c2_source c2_target).confidence = "high" := by
  have hcat : category_score c2_source c2_target = 0.5 := rfl
  have hcol : color_score c2_source c2_target = 0.7 := rfl
  have hbr : brand_score c2_source c2_target = 0.7 := rfl
  have hloc : location_score c2_source c2_target = 1.0 := rfl
  have habs : |(0 : ℝ) - 1800| = 1800 := by
    rw [zero_sub, abs_neg, abs_of_nonneg (by norm_num : (0:ℝ) ≤ 1800)]
  have ht : time_score c2_source c2_target = 1.0 := by
    unfold time_score calculate_time_difference
    simp only [c2_source, c2_target]
    rw [habs]
    norm_num
  have hraw : final_score_raw 0.9 c2_source c2_target = 0.83 := by
    unfold final_score_raw
    rw [hcat, hcol, hbr, hloc, ht]
    ring_nf
  constructor
  · show py_round (final_score_raw 0.9 c2_source c2_target) 3 = 0.830
    rw [hraw]
    unfold py_round
    rw [show (0.83 : ℝ) * 10 ^ 3 = 830 by norm_num]
    rw [round_half_even_eq_floor 830 830 (by norm_num) (by norm_num)]
    norm_num
  · show (if final_score_raw 0.9 c2_source c2_target ≥ HIGH_CONFIDENCE
        then "high"
      else if final_score_raw 0.9 c2_source c2_target ≥ MEDIUM_CONFIDENCE
        then "medium"
      else "low") = "high"
    rw [hraw, if_pos (by norm_num [HIGH_CONFIDENCE])]

/-- C2 (amended): `final_score` is the weighted sum
`0.65·visual + 0.15·category + 0.08·color + 0.02·brand +
0.07·location + 0.03·time` rounded to 3 decimals, with the category
rule (1.0 on case-insensitive equality, else 0.5) and the color/brand
rule (1.0 both present and equal, 0.3 both present and unequal, 0.7
when either is missing) as specified and location/time following
their decay rules; the category-mismatch-only scenario yields
final_score 0.830 (not 0.7905), still HIGH. -/
theorem weighted_score_formula :
    (∀ (v : ℝ) (s t : ItemMeta), (calculate_match_score v s t).final_score =
      py_round (0.65 * v + 0.15 * category_score s t +
        0.08 * color_score s t + 0.02 * brand_score s t +
        0.07 * location_score s t + 0.03 * time_score s t) 3) ∧
    (∀ s t : ItemMeta, category_score s t =
      if lower s.category = lower t.category then 1.0 else 0.5) ∧
    (∀ s t : ItemMeta, color_score s t =
      if lower (s.color.getD "") ≠ "" ∧ lower (t.color.getD "") ≠ "" then
        (if lower (s.color.getD "") = lower (t.color.getD "") then 1.0
          else 0.3)
      else 0.7) ∧
    (∀ s t : ItemMeta, brand_score s t =
      if lower (s.brand.getD "") ≠ "" ∧ lower (t.brand.getD "") ≠ "" then
        (if lower (s.brand.getD "") = lower (t.brand.getD "") then 1.0
          else 0.3)
      else 0.7) ∧
    ((calculate_match_score 0.9 c2_source c2_target).final_score = 0.830 ∧
      (calculate_match_score 0.9 c2_source c2_target).confidence = "high") := by
  refine ⟨?_, ?_, ?_, ?_, c2_example_final⟩
  · intro v s t
    show py_round (final_score_raw v s t) 3 = _
    congr 1
    unfold final_score_raw
    ring
  · intro s t
    unfold category_score category_match_bool
    simp only [decide_eq_true_eq]
  · intro s t
    by_cases hc : lower (s.color.getD "") ≠ "" ∧ lower (t.color.getD "") ≠ "" <;>
      by_cases heq : lower (s.color.getD "") = lower (t.color.getD "") <;>
        by_cases hte : lower (t.color.getD "") = "" <;>
          by_cases hse : lower (s.color.getD "") = "" <;>
            simp [color_score, color_match_opt, hc, heq, hte, hse]
  · intro s t
    by_cases hc : lower (s.brand.getD "") ≠ "" ∧ lower (t.brand.getD "") ≠ "" <;>
      by_cases heq : lower (s.brand.getD "") = lower (t.brand.getD "") <;>
        by_cases hte : lower (t.brand.getD "") = "" <;>
          by_cases hse : lower (s.brand.getD "") = "" <;>
            simp [brand_score, brand_match_opt, hc, heq, hte, hse]

/-- Counterexample for C2 as stated: the category-mismatch-only
scenario does not yield final_score 0.7905 — the weighted sum of its
component scores is 0.83 (0.585 + 0.075 + 0.056 + 0.014 + 0.07 +
0.03), and 0.830 is returned. -/
theorem category_mismatch_not_0_7905 :
    (calculate_match_score 0.9 c2_source c2_target).final_score ≠ 0.7905 := by
  rw [c2_example_final.1]
  norm_num
/-- Helper: any member of the `find_matches` output passed both the
visual pre-filter and the final-score filter. -/
theorem mem_find_matches
    {se : Option (List ℝ)} {sm : ItemMeta}
    {cands : List (Option (List ℝ) × ItemMeta)} {mso : Option ℝ}
    {mr : ℕ} {m : MatchCandidate}
    (h : m ∈ find_matches se sm cands mso mr) :
    MIN_VISUAL_SIMILARITY ≤ m.visual_similarity ∧
    effective_min_score mso ≤ m.final_score := by
  simp only [find_matches] at h
  have h2 := List.mem_mergeSort.mp (List.mem_of_mem_take h)
  obtain ⟨cand, hc, hf⟩ := List.mem_filterMap.mp h2
  by_cases hv : visual_sim_of se cand.1 < MIN_VISUAL_SIMILARITY
  · rw [if_pos hv] at hf
    exact absurd hf (by simp)
  · rw [if_neg hv] at hf
    by_cases hs : (calculate_match_score (visual_sim_of se cand.1) sm
        cand.2).final_score ≥ effective_min_score mso
    · rw [if_pos hs] at hf
      injection hf with hm
      subst hm
      exact ⟨not_lt.mp hv, hs⟩
    · rw [if_neg hs] at hf
      exact absurd hf (by simp)

/-- C5: the visual pre-filter threshold is 0.10, and every candidate
appearing in the `find_matches` output has clamped visual similarity
at least 0.10 — a candidate below the threshold never appears, no
matter its metadata. -/
theorem visual_prefilter_never_passed :
    MIN_VISUAL_SIMILARITY = 0.10 ∧
    ∀ (se : Option (List ℝ)) (sm : ItemMeta)
      (cands : List (Option (List ℝ) × ItemMeta)) (mso : Option ℝ)
      (mr : ℕ),
      (find_matches se sm cands mso mr).Forall
        (fun m => MIN_VISUAL_SIMILARITY ≤ m.visual_similarity) := by
  refine ⟨rfl, ?_⟩
  intro se sm cands mso mr
  rw [List.forall_iff_forall_mem]
  exact fun m hm => (mem_find_matches hm).1

/-- C6: every returned match scores at least the requested minimum
(0.25 when none is supplied), the output is sorted descending by
final score, its length is at most `max_results`, and the empty
candidate list yields the empty output. -/
theorem find_matches_filter_sort_truncate :
    ∀ (se : Option (List ℝ)) (sm : ItemMeta)
      (cands : List (Option (List ℝ) × ItemMeta)) (mso : Option ℝ)
      (mr : ℕ),
      ((find_matches se sm cands mso mr).Forall
        (fun m => mso.getD MIN_FINAL_SCORE ≤ m.final_score)) ∧
      ((find_matches se sm cands mso mr).Pairwise
        (fun a b => b.final_score ≤ a.final_score)) ∧
      (find_matches se sm cands mso mr).length ≤ mr ∧
      find_matches se sm ([] : List (Option (List ℝ) × ItemMeta)) mso mr
        = [] := by
  intro se sm cands mso mr
  refine ⟨?_, ?_, ?_, by simp [find_matches]⟩
  · rw [List.forall_iff_forall_mem]
    intro m hm
    have h2 := (mem_find_matches hm).2
    have hle : mso.getD MIN_FINAL_SCORE ≤ effective_min_score mso := by
      cases mso with
      | none => simp [effective_min_score]
      | some v =>
        by_cases hv : v = 0
        · subst hv
          simp [effective_min_score, MIN_FINAL_SCORE]
          norm_num
        · simp [effective_min_score, hv]
    exact le_trans hle h2
  · have htrans : ∀ a b c : MatchCandidate, by_score_desc a b →
        by_score_desc b c → by_score_desc a c := by
      intro a b c hab hbc
      simp only [by_score_desc, decide_eq_true_eq] at *
      exact le_trans hbc hab
    have htotal : ∀ a b : MatchCandidate,
        by_score_desc a b || by_score_desc b a := by
      intro a b
      simp only [by_score_desc]
      rcases le_total a.final_score b.final_score with h | h <;> simp [h]
    simp only [find_matches]
    have hs := List.sorted_mergeSort htrans htotal
      (cands.filterMap (fun cand =>
        let visual_sim := visual_sim_of se cand.1
        if visual_sim < MIN_VISUAL_SIMILARITY then none
        else
          let m := calculate_match_score visual_sim sm cand.2
          if m.final_score ≥ effective_min_score mso then some m else none))
    have hp := hs.imp (fun {a b} h => by
      simpa [by_score_desc, decide_eq_true_eq] using h)
    exact hp.sublist (List.take_sublist _ _)
  · simp only [find_matches, List.length_take]
    exact min_le_left _ _
/-- Helper: `findItem` returns a row carrying the requested id. -/
theorem findItem_id (l : List Item) (iid : String) (it : Item)
    (h : findItem l iid = some it) : it.id = iid := by
  induction l with
  | nil => simp [findItem] at h
  | cons a rest ih =>
    unfold findItem at h
    by_cases ha : a.id = iid
    · rw [if_pos ha] at h
      injection h with h
      subst h
      exact ha
    · rw [if_neg ha] at h
      exact ih h

/-- Helper: after persisting an updated row with the looked-up id,
`findItem` returns the updated row. -/
theorem findItem_updateItem (l : List Item) (iid : String) (it0 it : Item)
    (h : findItem l iid = some it0) (hid : it.id = iid) :
    findItem (updateItem l it) iid = some it := by
  induction l with
  | nil => simp [findItem] at h
  | cons a rest ih =>
    unfold findItem at h
    show findItem (List.map (fun j => if j.id = it.id then it else j)
      (a :: rest)) iid = some it
    rw [List.map_cons]
    by_cases ha : a.id = iid
    · rw [if_pos (ha.trans hid.symm)]
      unfold findItem
      rw [if_pos hid]
    · rw [if_neg (fun hc => ha (hc.trans hid))]
      unfold findItem
      rw [if_neg ha]
      rw [if_neg ha] at h
      exact ih h

/-- C9: with the detector and extractor models unavailable, `detect`
returns the empty result (no detections, null primary class) and
`extract` returns null; `process_item` still succeeds on any existing
item, marks it `ai_processed = true`, and reports zero matches. -/
theorem model_unavailable_degrades (db : DBState) (iid : String)
    (h : (findItem db.items iid).isSome) :
    detect_model_unavailable.detections = [] ∧
    detect_model_unavailable.primary_class = none ∧
    extract_model_unavailable = none ∧
    ∃ db' r,
      process_item detect_model_unavailable extract_model_unavailable
          iid db = .ok (db', r) ∧
      r.matches_found = 0 ∧
      ∃ it', findItem db'.items iid = some it' ∧
        it'.ai_processed = true := by
  obtain ⟨it, hit⟩ := Option.isSome_iff_exists.mp h
  have hid : it.id = iid := findItem_id _ _ _ hit
  have e : process_item detect_model_unavailable extract_model_unavailable
      iid db =
      .ok (⟨updateItem (updateItem db.items
          { it with
            detected_objects := none
            ai_category := none
            ai_processed := true
            embedding := it.embedding })
          { it with
            detected_objects := none
            ai_category := none
            ai_processed := true
            embedding := it.embedding },
        db.matchRows⟩,
        { item_id := iid
          detected_objects := []
          ai_category := none
          embedding := none
          matches_found := 0 }) := by
    unfold process_item
    rw [hit]
    exact rfl
  refine ⟨rfl, rfl, rfl, _, _, e, rfl, ?_⟩
  exact ⟨_, findItem_updateItem _ iid _ _
    (findItem_updateItem db.items iid it _ hit hid) hid, rfl⟩

/-- Witness for C9: the two-item fixture database and item "a". -/
theorem model_unavailable_degrades_witness :
    ((findItem db_c1.items "a").isSome = true) ∧
    (detect_model_unavailable.detections = [] ∧
     detect_model_unavailable.primary_class = none ∧
     extract_model_unavailable = none ∧
     ∃ db' r,
       process_item detect_model_unavailable extract_model_unavailable
           "a" db_c1 = .ok (db', r) ∧
       r.matches_found = 0 ∧
       ∃ it', findItem db'.items "a" = some it' ∧
         it'.ai_processed = true) :=
  ⟨rfl, model_unavailable_degrades db_c1 "a" rfl⟩
/-- Helper: `find_matches` on a single candidate that passes both the
visual pre-filter and the final-score filter returns exactly that
candidate's match. -/
theorem find_matches_single (se ce : Option (List ℝ)) (sm cm : ItemMeta)
    (mso : Option ℝ) (mr : ℕ) (hmr : 0 < mr)
    (hv : ¬ visual_sim_of se ce < MIN_VISUAL_SIMILARITY)
    (hs : (calculate_match_score (visual_sim_of se ce) sm cm).final_score ≥
      effective_min_score mso) :
    find_matches se sm [(ce, cm)] mso mr =
      [calculate_match_score (visual_sim_of se ce) sm cm] := by
  unfold find_matches
  simp only [List.filterMap_cons, List.filterMap_nil]
  rw [if_neg hv, if_pos hs]
  show (([calculate_match_score (visual_sim_of se ce) sm cm].mergeSort
    by_score_desc).take mr) = _
  rw [List.mergeSort_singleton]
  cases mr with
  | zero => omega
  | succ k => simp

/-- Helper: the final score of the match of item "a" against item "b"
is 0.92 (visual 1, category match, all else neutral). -/
theorem mc_ab_final_score : mc_ab.final_score = 0.92 := by
  have h1 : category_score (item_to_dict item_a1) (item_to_dict item_b)
      = 1.0 := rfl
  have h2 : color_score (item_to_dict item_a1) (item_to_dict item_b)
      = 0.7 := rfl
  have h3 : brand_score (item_to_dict item_a1) (item_to_dict item_b)
      = 0.7 := rfl
  have h4 : location_score (item_to_dict item_a1) (item_to_dict item_b)
      = 0.5 := rfl
  have h5 : time_score (item_to_dict item_a1) (item_to_dict item_b)
      = 0.5 := rfl
  have hraw : final_score_raw 1 (item_to_dict item_a1)
      (item_to_dict item_b) = 0.92 := by
    unfold final_score_raw
    rw [h1, h2, h3, h4, h5]
    norm_num
  show py_round (final_score_raw 1 (item_to_dict item_a1)
    (item_to_dict item_b)) 3 = 0.92
  rw [hraw]
  unfold py_round
  rw [show (0.92 : ℝ) * 10 ^ 3 = 920 by norm_num]
  rw [round_half_even_eq_floor 920 920 (by norm_num) (by norm_num)]
  norm_num

/-- Helper: processing item "a" against the single candidate "b"
finds exactly the one match `mc_ab`. -/
theorem find_matches_ab :
    find_matches (some [1]) (item_to_dict item_a1)
      [(some [1], item_to_dict item_b)] (some min_match_similarity) 20 =
      [mc_ab] := by
  have hv1 : visual_sim_of (some [1]) (some [1]) = 1 := by
    norm_num [visual_sim_of, dot]
  have hv : ¬ visual_sim_of (some [1]) (some [1]) < MIN_VISUAL_SIMILARITY := by
    rw [hv1]
    norm_num [MIN_VISUAL_SIMILARITY]
  have hs : (calculate_match_score (visual_sim_of (some [1]) (some [1]))
      (item_to_dict item_a1) (item_to_dict item_b)).final_score ≥
      effective_min_score (some min_match_similarity) := by
    rw [hv1]
    show mc_ab.final_score ≥ _
    rw [mc_ab_final_score]
    norm_num [effective_min_score, min_match_similarity]
  have h := find_matches_single (some [1]) (some [1]) (item_to_dict item_a1)
    (item_to_dict item_b) (some min_match_similarity) 20 (by norm_num) hv hs
  rw [hv1] at h
  exact h

/-- C1 evaluated at the failing input: `_create_match` performs no
existence check, so processing item "a" twice with the same embedding
inserts two identical match rows for the pair ("a", "b") and bumps
the item's `match_count` to 2 — reprocessing is not idempotent. -/
theorem duplicate_match_rows_on_reprocess :
    ∃ db1 r1 db2 r2,
      process_item detect_model_unavailable (some [1]) "a" db_c1 =
        .ok (db1, r1) ∧
      process_item detect_model_unavailable (some [1]) "a" db1 =
        .ok (db2, r2) ∧
      r1.matches_found = 1 ∧ r2.matches_found = 1 ∧
      (db2.matchRows.filter (fun m =>
        decide (m.user_item_id = "a") &&
        decide (m.matched_item_id = "b"))).length = 2 ∧
      ∃ it, findItem db2.items "a" = some it ∧ it.match_count = 2 := by
  have e1 : process_item detect_model_unavailable (some [1]) "a" db_c1 =
      (fun step : DBState × Item × ℕ =>
        (Except.ok (⟨updateItem step.1.items step.2.1, step.1.matchRows⟩,
          ({ item_id := "a"
             detected_objects := []
             ai_category := none
             embedding := some [1]
             matches_found := step.2.2 } : ProcessingResult)) :
          Except String (DBState × ProcessingResult)))
      ((find_matches (some [1]) (item_to_dict item_a1)
          [(some [1], item_to_dict item_b)] (some min_match_similarity)
          20).foldl create_match
        (⟨[item_a1, item_b], ([] : List MatchRec)⟩, item_a1, 0)) := rfl
  rw [find_matches_ab] at e1
  have e1f : process_item detect_model_unavailable (some [1]) "a" db_c1 =
      Except.ok (db_after1, r_run) := e1.trans rfl
  have e2 : process_item detect_model_unavailable (some [1]) "a" db_after1 =
      (fun step : DBState × Item × ℕ =>
        (Except.ok (⟨updateItem step.1.items step.2.1, step.1.matchRows⟩,
          ({ item_id := "a"
             detected_objects := []
             ai_category := none
             embedding := some [1]
             matches_found := step.2.2 } : ProcessingResult)) :
          Except String (DBState × ProcessingResult)))
      ((find_matches (some [1]) (item_to_dict item_a1)
          [(some [1], item_to_dict item_b)] (some min_match_similarity)
          20).foldl create_match
        (⟨[item_a2, item_b], [m_ab]⟩, item_a2, 0)) := rfl
  rw [find_matches_ab] at e2
  have e2f : process_item detect_model_unavailable (some [1]) "a" db_after1 =
      Except.ok (db_after2, r_run) := e2.trans rfl
  exact ⟨db_after1, r_run, db_after2, r_run, e1f, e2f, rfl, rfl, rfl,
    item_a3, rfl, rfl⟩
